import Mathlib

/-!
Shallow embedding of the Flask crop-recommendation app (src/app.py).
The `/predict` handler (`predict`, app.py lines 56-132) is modelled as a pure
function of the loaded artifacts and the submitted form.  Serialized
artifacts (the classifier `model`, the two scalers `sc` and `ms`, and the
optional `label_encoder`) are modelled as abstract functions, loaded or not
(`Option`); fallible artifact calls return `Except String` so that the
exception text the handler embeds in its messages is represented.
Machine floats only flow through the abstract artifact functions, so feature
values are represented as rationals.
-/

/-- Model of a raw classifier prediction element (`pred = prediction[0]`,
app.py line 93): a Python value that is an integer (e.g. numpy int), a
non-integer number, or a string, which is all the handler's resolution
tiers distinguish. -/
inductive PredValue where
  | pint (n : Int)
  | pfloat (q : ℚ)
  | pstr (s : String)
deriving DecidableEq

/-- Whitespace for Python `str.strip()` / numeric-literal stripping. -/
def pySpace (c : Char) : Bool :=
  c = ' ' ∨ c = '\t' ∨ c = '\n' ∨ c = '\r' ∨ c = '\x0b' ∨ c = '\x0c'

/-- Modelled from the spec: Python `str.strip()` (app.py line 69), removing
leading and trailing whitespace. -/
def pyStrip (s : String) : String :=
  String.mk (((s.data.dropWhile pySpace).reverse.dropWhile pySpace).reverse)

/-- Read a maximal run of decimal digits: accumulated value, number of
digits read, and the remaining characters. -/
def readDigits (acc : Nat) (count : Nat) : List Char → Nat × Nat × List Char
  | [] => (acc, count, [])
  | c :: cs =>
      if c.isDigit then readDigits (10 * acc + (c.toNat - 48)) (count + 1) cs
      else (acc, count, c :: cs)

/-- Apply a decimal exponent to a mantissa: `m * 10^e` or `m / 10^e`. -/
def applyExp (m : ℚ) (pos : Bool) (e : Nat) : ℚ :=
  if pos then m * (10 : ℚ) ^ e else m / (10 : ℚ) ^ e

/-- Parse the exponent digits of a float literal; fails if no digit or
trailing garbage remains. -/
def expDigits (m : ℚ) (pos : Bool) (cs : List Char) : Option ℚ :=
  let r := readDigits 0 0 cs
  if r.2.1 = 0 ∨ r.2.2 ≠ [] then none else some (applyExp m pos r.1)

/-- Parse an optional exponent part (`e`/`E`, optional sign, digits) after
the mantissa; anything else trailing makes the literal invalid. -/
def parseExp (m : ℚ) : List Char → Option ℚ
  | [] => some m
  | c :: rest =>
      if c = 'e' ∨ c = 'E' then
        match rest with
        | '+' :: r2 => expDigits m true r2
        | '-' :: r2 => expDigits m false r2
        | r2 => expDigits m true r2
      else none

/-- Parse an unsigned float literal body: digits, optional `.` with
fraction digits (at least one digit overall), optional exponent. -/
def parseUnsigned (cs : List Char) : Option ℚ :=
  let ri := readDigits 0 0 cs
  match ri.2.2 with
  | '.' :: rest2 =>
      let rf := readDigits 0 0 rest2
      if ri.2.1 = 0 ∧ rf.2.1 = 0 then none
      else parseExp ((ri.1 : ℚ) + (rf.1 : ℚ) / (10 : ℚ) ^ rf.2.1) rf.2.2
  | _ => if ri.2.1 = 0 then none else parseExp (ri.1 : ℚ) ri.2.2

/-- Modelled from the spec: Python `float(raw)` on a string (app.py line
72), parsing a real-number literal (optional sign, digits with optional
fraction and exponent, surrounding whitespace); `none` models the
`ValueError` the handler catches. -/
def pyFloat (s : String) : Option ℚ :=
  match (pyStrip s).data with
  | '+' :: rest => parseUnsigned rest
  | '-' :: rest => Option.map (fun q => -q) (parseUnsigned rest)
  | cs => parseUnsigned cs

/-- Modelled from the spec: Python `int(s)` on a string, accepting only an
optionally-signed run of digits (after stripping whitespace); `none`
models the raised `ValueError`. -/
def pyIntOfString (s : String) : Option Int :=
  let core : List Char → Option Int := fun l =>
    let r := readDigits 0 0 l
    if r.2.1 = 0 ∨ r.2.2 ≠ [] then none else some (r.1 : Int)
  match (pyStrip s).data with
  | '+' :: rest => core rest
  | '-' :: rest => Option.map Neg.neg (core rest)
  | cs => core cs

/-- Modelled from the spec: Python `int()` on a real number truncates
toward zero. -/
def pyTrunc (q : ℚ) : Int :=
  if 0 ≤ q then ((q.num.toNat / q.den : Nat) : Int)
  else -(((-q).num.toNat / (-q).den : Nat) : Int)

/-- Python `int(pred)` on a raw prediction value (app.py lines 102 and
122): identity on integers, truncation toward zero on numbers, strict
integer-literal parsing on strings; `none` models a raised exception. -/
def pyIntOfPred : PredValue → Option Int
  | .pint n => some n
  | .pfloat q => some (pyTrunc q)
  | .pstr s => pyIntOfString s

/-- Python `isinstance(pred, str)` (app.py line 110). -/
def PredValue.isStr : PredValue → Bool
  | .pstr _ => true
  | _ => false

/-- Python `str(pred)` as interpolated into the result f-strings; for
non-integer numbers the exact rendering is a modelling choice. -/
def showPred : PredValue → String
  | .pint n => toString n
  | .pfloat q => toString q
  | .pstr s => s

/-- The static 22-entry fallback crop table `crop_dict` (app.py lines
115-120); `crop_dict.get` returns `none` for an absent key. -/
def crop_dict : Int → Option String
  | 1 => some "Rice"
  | 2 => some "Maize"
  | 3 => some "Jute"
  | 4 => some "Cotton"
  | 5 => some "Coconut"
  | 6 => some "Papaya"
  | 7 => some "Orange"
  | 8 => some "Apple"
  | 9 => some "Muskmelon"
  | 10 => some "Watermelon"
  | 11 => some "Grapes"
  | 12 => some "Mango"
  | 13 => some "Banana"
  | 14 => some "Pomegranate"
  | 15 => some "Lentil"
  | 16 => some "Blackgram"
  | 17 => some "Mungbean"
  | 18 => some "Mothbeans"
  | 19 => some "Pigeonpeas"
  | 20 => some "Kidneybeans"
  | 21 => some "Chickpea"
  | 22 => some "Coffee"
  | _ => none

/-- The fixed field order (app.py line 65). -/
def fieldNames : List String :=
  ["Nitrogen", "Phosporus", "Potassium", "Temperature", "Humidity", "Ph", "Rainfall"]

/-- A submitted form: `request.form.get` as a partial map from field name
to raw text. -/
def Form : Type := String → Option String

/-- The loaded artifacts (app.py lines 31-34): classifier and scalers are
fallible functions (`Except` carries the exception text the handler
embeds); the optional label encoder maps an integer code to a name, with
`none` modelling a raised exception in `inverse_transform`. -/
structure Artifacts where
  model : Option (List ℚ → Except String (List PredValue))
  sc : Option (List ℚ → Except String (List ℚ))
  ms : Option (List ℚ → Except String (List ℚ))
  label_encoder : Option (Int → Option String)

/-- A handler outcome: a rendered page with a result string, or an
uncaught exception propagating to the caller. -/
inductive Response where
  | page (result : String)
  | crash
deriving DecidableEq

/-- The field-validation loop (app.py lines 66-75): for each field in
order, missing or blank input short-circuits with the "Please provide"
message, an unparseable value short-circuits with the "Invalid numeric
value" message, and on success the parsed numbers are collected in
order. -/
def validateFields (form : Form) : List String → Except String (List ℚ)
  | [] => Except.ok []
  | field :: rest =>
      match form field with
      | none => Except.error ("Please provide a value for " ++ field ++ ".")
      | some raw =>
          if pyStrip raw = "" then
            Except.error ("Please provide a value for " ++ field ++ ".")
          else
            match pyFloat raw with
            | none =>
                Except.error ("Invalid numeric value for " ++ field ++ ": '" ++ raw ++ "'")
            | some val => Except.map (fun vs => val :: vs) (validateFields form rest)

/-- The tiered label resolution (app.py lines 96-124): (1) if a label
encoder is loaded, `inverse_transform([int(pred)])[0]`, any exception
leaving the name unset; (2) if still unset and the prediction is a
string, use it directly; (3) if still unset, `crop_dict.get(int(pred))`,
any exception leaving the name unset. -/
def resolveCrop (enc : Option (Int → Option String)) (pred : PredValue) : Option String :=
  let c1 : Option String :=
    match enc with
    | some e =>
        match pyIntOfPred pred with
        | some n => e n
        | none => none
    | none => none
  let c2 : Option String :=
    match c1 with
    | some s => some s
    | none => match pred with
              | .pstr s => some s
              | _ => none
  match c2 with
  | some s => some s
  | none =>
      match pyIntOfPred pred with
      | some n => crop_dict n
      | none => none

/-- The success message template (app.py line 128). -/
def successMsg (name : String) : String :=
  name ++ " is the best crop to be cultivated right there."

/-- The failure message template (app.py line 130). -/
def sorryMsg (pred : PredValue) : String :=
  "Sorry, could not determine the best crop. Model output: " ++ showPred pred

/-- The result formatting (app.py lines 127-130): `if crop_name:` is
Python truthiness, so both an unset name and an empty-string name take
the failure branch. -/
def formatResult (crop_name : Option String) (pred : PredValue) : String :=
  match crop_name with
  | some s => if s = "" then sorryMsg pred else successMsg s
  | none => sorryMsg pred

/-- The configuration-error message (app.py lines 60-61). -/
def configErrorMsg : String :=
  "Server configuration error: model or scaler not loaded. " ++
  "Ensure model.pkl, standscaler.pkl and minmaxscaler.pkl exist in the app folder."

/-- The `/predict` handler (app.py lines 56-132): availability check,
field validation, MinMax then Standard scaling (each `try` reported as a
page), classification (`try` reported as a page), then
`pred = prediction[0]` — which is outside any `try` block, so an empty
prediction array is an uncaught `IndexError` (`Response.crash`) — and
finally label resolution and result formatting. -/
def predict (a : Artifacts) (form : Form) : Response :=
  match a.model, a.sc, a.ms with
  | some mdl, some scf, some msf =>
      (match validateFields form fieldNames with
       | Except.error msg => Response.page msg
       | Except.ok values =>
           match msf values with
           | Except.error e => Response.page ("Error while scaling features: " ++ e)
           | Except.ok scaled_features =>
               match scf scaled_features with
               | Except.error e => Response.page ("Error while scaling features: " ++ e)
               | Except.ok final_features =>
                   match mdl final_features with
                   | Except.error e => Response.page ("Error during model prediction: " ++ e)
                   | Except.ok prediction =>
                       match prediction with
                       | [] => Response.crash
                       | pred :: _ =>
                           Response.page
                             (formatResult (resolveCrop a.label_encoder pred) pred))
  | _, _, _ => Response.page configErrorMsg

/-- Reduction of `predict` once the three mandatory artifacts are loaded. -/
theorem predict_eq_of_loaded (a : Artifacts) (form : Form)
    (mdl : List ℚ → Except String (List PredValue))
    (scf msf : List ℚ → Except String (List ℚ))
    (hm : a.model = some mdl) (hsc : a.sc = some scf) (hms : a.ms = some msf) :
    predict a form =
      match validateFields form fieldNames with
      | Except.error msg => Response.page msg
      | Except.ok values =>
          match msf values with
          | Except.error e => Response.page ("Error while scaling features: " ++ e)
          | Except.ok scaled_features =>
              match scf scaled_features with
              | Except.error e => Response.page ("Error while scaling features: " ++ e)
              | Except.ok final_features =>
                  match mdl final_features with
                  | Except.error e => Response.page ("Error during model prediction: " ++ e)
                  | Except.ok prediction =>
                      match prediction with
                      | [] => Response.crash
                      | pred :: _ =>
                          Response.page
                            (formatResult (resolveCrop a.label_encoder pred) pred) := by
  obtain ⟨m, s, t, e⟩ := a
  cases hm
  cases hsc
  cases hms
  rfl

/-- Every name in the static fallback table is a non-empty string. -/
theorem crop_dict_ne_empty (k : Int) (name : String) (hk : crop_dict k = some name) :
    ¬ name = "" := by
  unfold crop_dict at hk
  split at hk <;>
    first
      | exact Option.noConfusion hk
      | (injection hk with h; subst h; decide)

/-- C1: with the classifier and both scalers loaded, no label resolver
loaded, all 7 fields parsing as numbers, and the classifier's raw output
on the transformed vector being an integer code present in the static
22-entry fallback table, the handler renders exactly
"<name> is the best crop to be cultivated right there." for the table
entry's name. -/
theorem C1_fallback_table_success
    (a : Artifacts) (form : Form)
    (mdl : List ℚ → Except String (List PredValue))
    (scf msf : List ℚ → Except String (List ℚ))
    (vs v1 v2 : List ℚ) (k : Int) (name : String) (rest : List PredValue)
    (hm : a.model = some mdl) (hsc : a.sc = some scf) (hms : a.ms = some msf)
    (henc : a.label_encoder = none)
    (hv : validateFields form fieldNames = Except.ok vs)
    (h1 : msf vs = Except.ok v1)
    (h2 : scf v1 = Except.ok v2)
    (h3 : mdl v2 = Except.ok (PredValue.pint k :: rest))
    (hk : crop_dict k = some name) :
    predict a form =
      Response.page (name ++ " is the best crop to be cultivated right there.") := by
  rw [predict_eq_of_loaded a form mdl scf msf hm hsc hms]
  simp only [hv, h1, h2, h3, henc]
  simp only [resolveCrop, pyIntOfPred, hk]
  simp only [formatResult, successMsg]
  rw [if_neg (crop_dict_ne_empty k name hk)]

/-- Closed instance of C1: code 1 with no resolver yields the Rice
message. -/
theorem C1_fallback_table_success_witness :
    predict
      ⟨some (fun _ => Except.ok [PredValue.pint 1]),
       some (fun v => Except.ok v), some (fun v => Except.ok v), none⟩
      (fun _ => some "1")
      = Response.page ("Rice" ++ " is the best crop to be cultivated right there.") :=
  C1_fallback_table_success _ _ _ _ _
    [1, 1, 1, 1, 1, 1, 1] [1, 1, 1, 1, 1, 1, 1] [1, 1, 1, 1, 1, 1, 1] 1 "Rice" []
    rfl rfl rfl rfl rfl rfl rfl rfl rfl

/-- C3: if the classifier or either scaler is not loaded, every request
renders the fixed configuration-error message, whatever the submitted
fields are. -/
theorem C3_config_error (a : Artifacts) (form : Form)
    (h : a.model = none ∨ a.sc = none ∨ a.ms = none) :
    predict a form = Response.page configErrorMsg := by
  obtain ⟨m, s, t, e⟩ := a
  cases m <;> cases s <;> cases t <;> simp_all [predict]

/-- Closed instance of C3: with no artifacts loaded, a request with no
fields at all still renders the configuration-error message. -/
theorem C3_config_error_witness :
    predict ⟨none, none, none, none⟩ (fun _ => none) = Response.page configErrorMsg :=
  C3_config_error ⟨none, none, none, none⟩ (fun _ => none) (Or.inl rfl)

/-- C2: label resolution is a tiered fallback in the fixed order
resolver / raw string / static table, first success winning: (1) a loaded
resolver that succeeds on the converted code decides the name, so for any
code both it and the static table could resolve, the resolver's answer is
used; (2) a resolver failure falls through to exactly the no-resolver
behaviour (the request is not failed); (3) so does a failed integer
conversion of the raw prediction; (4) with no name from earlier tiers, a
textual raw prediction is used directly; (5) otherwise the raw prediction
is interpreted as an integer and looked up in the static table. -/
theorem C2_tiered_resolution (e : Int → Option String) (pred : PredValue)
    (n : Int) (s : String) :
    (pyIntOfPred pred = some n → e n = some s → resolveCrop (some e) pred = some s) ∧
    (pyIntOfPred pred = some n → e n = none →
       resolveCrop (some e) pred = resolveCrop none pred) ∧
    (pyIntOfPred pred = none → resolveCrop (some e) pred = resolveCrop none pred) ∧
    (resolveCrop none (PredValue.pstr s) = some s) ∧
    (PredValue.isStr pred = false →
       resolveCrop none pred =
         (match pyIntOfPred pred with
          | some m => crop_dict m
          | none => none)) := by
  refine ⟨?_, ?_, ?_, ?_, ?_⟩
  · intro hn he
    simp only [resolveCrop, hn, he]
  · intro hn he
    cases pred <;> simp only [resolveCrop, hn, he]
  · intro hn
    cases pred <;> simp only [resolveCrop, hn]
  · simp only [resolveCrop]
  · intro hstr
    cases pred <;> simp_all [resolveCrop, PredValue.isStr]

/-- Closed instance of C2: a resolver mapping code 1 to "ResolverRice"
beats the static table entry "Rice" for the same code. -/
theorem C2_tiered_resolution_witness :
    resolveCrop (some (fun m => if m = 1 then some "ResolverRice" else none))
      (PredValue.pint 1) = some "ResolverRice" ∧
    crop_dict 1 = some "Rice" :=
  ⟨(C2_tiered_resolution (fun m => if m = 1 then some "ResolverRice" else none)
      (PredValue.pint 1) 1 "ResolverRice").1 rfl rfl, rfl⟩

/-- C10: both resolution tiers convert the raw prediction with a
truncating-toward-zero integer conversion before lookup: with a resolver
loaded, a numeric prediction is resolved through the resolver at its
truncated code, falling back to the static table at that same truncated
code; with no resolver the static table is consulted at the truncated
code; and a raw string prediction no integer conversion accepts can never
reach the resolver — it is returned directly whatever the resolver
says. -/
theorem C10_truncating_conversion (e : Int → Option String) (q : ℚ) (s : String) :
    (resolveCrop (some e) (PredValue.pfloat q) =
       (match e (pyTrunc q) with
        | some name => some name
        | none => crop_dict (pyTrunc q))) ∧
    (resolveCrop none (PredValue.pfloat q) = crop_dict (pyTrunc q)) ∧
    (pyIntOfString s = none → resolveCrop (some e) (PredValue.pstr s) = some s) := by
  refine ⟨?_, ?_, ?_⟩
  · cases he : e (pyTrunc q) <;>
      simp only [resolveCrop, pyIntOfPred, he]
  · simp only [resolveCrop, pyIntOfPred]
  · intro hs
    simp only [resolveCrop, pyIntOfPred, hs]

/-- Closed instance of C10: raw output 1.9 with no resolver resolves to
"Rice" (the entry for the truncated code 1), and the non-integer-parseable
raw string "1.9" bypasses a resolver that would resolve everything. -/
theorem C10_truncating_conversion_witness :
    resolveCrop none (PredValue.pfloat (mkRat 19 10)) = some "Rice" ∧
    resolveCrop (some (fun _ => some "X")) (PredValue.pstr "1.9") = some "1.9" :=
  ⟨((C10_truncating_conversion (fun _ => some "X") (mkRat 19 10) "1.9").2.1).trans
     (by decide),
   (C10_truncating_conversion (fun _ => some "X") (mkRat 19 10) "1.9").2.2 (by decide)⟩

/-- A field value that passes validation: present, non-blank after
stripping, and parseable as a number. -/
def fieldOK (form : Form) (f : String) : Prop :=
  ∃ r, form f = some r ∧ ¬ pyStrip r = "" ∧ ∃ q, pyFloat r = some q

/-- A field value that is missing, or blank after stripping. -/
def fieldBlank (form : Form) (f : String) : Prop :=
  form f = none ∨ ∃ r, form f = some r ∧ pyStrip r = ""

/-- If every field before position `i` validates and the field at `i` is
missing or blank, the validation loop stops there with the
"Please provide" message for that field. -/
theorem validateFields_blank (form : Form) :
    ∀ (l : List String) (i : Nat) (h : i < l.length),
      (∀ j (hj : j < i), fieldOK form (l.get ⟨j, Nat.lt_trans hj h⟩)) →
      fieldBlank form (l.get ⟨i, h⟩) →
      validateFields form l =
        Except.error ("Please provide a value for " ++ l.get ⟨i, h⟩ ++ ".") := by
  intro l
  induction l with
  | nil => intro i h; exact absurd h (Nat.not_lt_zero i)
  | cons f rest ih =>
      intro i h hpre hblank
      cases i with
      | zero =>
          rcases hblank with hnone | ⟨r, hr, hstrip⟩
          · have hnone2 : form f = none := hnone
            simp only [validateFields, hnone2]
            rfl
          · have hr2 : form f = some r := hr
            simp only [validateFields, hr2, if_pos hstrip]
            rfl
      | succ i' =>
          obtain ⟨r, hr, hst, q, hq⟩ := hpre 0 (Nat.succ_pos i')
          have hr2 : form f = some r := hr
          have hrec : validateFields form rest =
              Except.error
                ("Please provide a value for " ++ rest.get ⟨i', Nat.lt_of_succ_lt_succ h⟩ ++ ".") :=
            ih i' (Nat.lt_of_succ_lt_succ h)
              (fun j hj => hpre (j + 1) (Nat.succ_lt_succ hj)) hblank
          simp only [validateFields, hr2, if_neg hst, hq, hrec]
          rfl

/-- If every field before position `i` validates and the field at `i` is
present and non-blank but unparseable, the validation loop stops there
with the "Invalid numeric value" message echoing the raw text. -/
theorem validateFields_invalid (form : Form) :
    ∀ (l : List String) (i : Nat) (h : i < l.length) (r : String),
      (∀ j (hj : j < i), fieldOK form (l.get ⟨j, Nat.lt_trans hj h⟩)) →
      form (l.get ⟨i, h⟩) = some r →
      ¬ pyStrip r = "" →
      pyFloat r = none →
      validateFields form l =
        Except.error
          ("Invalid numeric value for " ++ l.get ⟨i, h⟩ ++ ": '" ++ r ++ "'") := by
  intro l
  induction l with
  | nil => intro i h; exact absurd h (Nat.not_lt_zero i)
  | cons f rest ih =>
      intro i h r hpre hr hst hbad
      cases i with
      | zero =>
          have hr2 : form f = some r := hr
          simp only [validateFields, hr2, if_neg hst, hbad]
          rfl
      | succ i' =>
          obtain ⟨r0, hr0, hst0, q0, hq0⟩ := hpre 0 (Nat.succ_pos i')
          have hr02 : form f = some r0 := hr0
          have hrec : validateFields form rest =
              Except.error
                ("Invalid numeric value for " ++
                  rest.get ⟨i', Nat.lt_of_succ_lt_succ h⟩ ++ ": '" ++ r ++ "'") :=
            ih i' (Nat.lt_of_succ_lt_succ h) r
              (fun j hj => hpre (j + 1) (Nat.succ_lt_succ hj)) hr hst hbad
          simp only [validateFields, hr02, if_neg hst0, hq0, hrec]
          rfl

/-- The validation loop only reads the form at the listed field names. -/
theorem validateFields_congr (f1 f2 : Form) :
    ∀ l : List String, (∀ f ∈ l, f1 f = f2 f) →
      validateFields f1 l = validateFields f2 l := by
  intro l
  induction l with
  | nil => intro _; rfl
  | cons f rest ih =>
      intro h
      have hf : f1 f = f2 f := h f (List.mem_cons_self f rest)
      have hrest := ih (fun g hg => h g (List.mem_cons_of_mem f hg))
      simp only [validateFields, hf, hrest]

/-- C4 (amended): with the mandatory artifacts loaded, if every field
before position `i` in the fixed order is present, non-blank and numeric,
and the field at position `i` is missing or blank, the handler renders
exactly "Please provide a value for <field>." (with a trailing period)
for that field, whatever the later fields hold. -/
theorem C4_first_blank_field (a : Artifacts) (form : Form)
    (mdl : List ℚ → Except String (List PredValue))
    (scf msf : List ℚ → Except String (List ℚ))
    (hm : a.model = some mdl) (hsc : a.sc = some scf) (hms : a.ms = some msf)
    (i : Nat) (h : i < fieldNames.length)
    (hpre : ∀ j (hj : j < i), fieldOK form (fieldNames.get ⟨j, Nat.lt_trans hj h⟩))
    (hblank : fieldBlank form (fieldNames.get ⟨i, h⟩)) :
    predict a form =
      Response.page ("Please provide a value for " ++ fieldNames.get ⟨i, h⟩ ++ ".") := by
  rw [predict_eq_of_loaded a form mdl scf msf hm hsc hms]
  rw [validateFields_blank form fieldNames i h hpre hblank]

/-- Closed instance of the amended C4: with Nitrogen valid and Phosporus
missing, the handler renders the Phosporus message, period included,
although Temperature is also missing. -/
theorem C4_first_blank_field_witness :
    predict
      ⟨some (fun _ => Except.ok [PredValue.pint 1]),
       some (fun v => Except.ok v), some (fun v => Except.ok v), none⟩
      (fun f => if f = "Nitrogen" then some "1" else none)
      = Response.page ("Please provide a value for " ++ "Phosporus" ++ ".") :=
  C4_first_blank_field _ _ _ _ _ rfl rfl rfl 1 (by decide)
    (fun j hj => by
      have hj0 : j = 0 := Nat.lt_one_iff.mp hj
      subst hj0
      exact ⟨"1", rfl, by decide, 1, by decide⟩)
    (Or.inl rfl)

/-- C4 as frozen is false: it predicts the message for the first
missing-or-blank field with no trailing period, but when an earlier field
holds unparseable text the handler reports that field instead — and its
messages always carry a trailing period.  With Nitrogen bound to "abc"
and every other field missing, the first missing-or-blank field is
Phosporus, yet the handler renders the Nitrogen invalid-value message,
which differs from the claimed exact message with or without the
period. -/
theorem C4_counterexample :
    predict
      ⟨some (fun _ => Except.ok [PredValue.pint 1]),
       some (fun v => Except.ok v), some (fun v => Except.ok v), none⟩
      (fun f => if f = "Nitrogen" then some "abc" else none)
      = Response.page "Invalid numeric value for Nitrogen: 'abc'" ∧
    ("Invalid numeric value for Nitrogen: 'abc'" ≠ "Please provide a value for Phosporus" ∧
     "Invalid numeric value for Nitrogen: 'abc'" ≠ "Please provide a value for Phosporus.") := by
  refine ⟨rfl, by decide, by decide⟩

/-- C5 (amended): with the mandatory artifacts loaded, if every field
before position `i` in the fixed order is present, non-blank and numeric,
and the field at position `i` is present and non-blank but not parseable
as a number, the handler renders exactly
"Invalid numeric value for <field>: '<raw text>'", naming that field and
echoing its raw text. -/
theorem C5_invalid_numeric_field (a : Artifacts) (form : Form)
    (mdl : List ℚ → Except String (List PredValue))
    (scf msf : List ℚ → Except String (List ℚ))
    (hm : a.model = some mdl) (hsc : a.sc = some scf) (hms : a.ms = some msf)
    (i : Nat) (h : i < fieldNames.length) (r : String)
    (hpre : ∀ j (hj : j < i), fieldOK form (fieldNames.get ⟨j, Nat.lt_trans hj h⟩))
    (hr : form (fieldNames.get ⟨i, h⟩) = some r)
    (hst : ¬ pyStrip r = "")
    (hbad : pyFloat r = none) :
    predict a form =
      Response.page
        ("Invalid numeric value for " ++ fieldNames.get ⟨i, h⟩ ++ ": '" ++ r ++ "'") := by
  rw [predict_eq_of_loaded a form mdl scf msf hm hsc hms]
  rw [validateFields_invalid form fieldNames i h r hpre hr hst hbad]

/-- Closed instance of the amended C5: submitting "abc" for Nitrogen
renders the Nitrogen invalid-value message echoing "abc". -/
theorem C5_invalid_numeric_field_witness :
    predict
      ⟨some (fun _ => Except.ok [PredValue.pint 1]),
       some (fun v => Except.ok v), some (fun v => Except.ok v), none⟩
      (fun _ => some "abc")
      = Response.page
          ("Invalid numeric value for " ++ "Nitrogen" ++ ": '" ++ "abc" ++ "'") :=
  C5_invalid_numeric_field _ _ _ _ _ rfl rfl rfl 0 (by decide) "abc"
    (fun j hj => absurd hj (Nat.not_lt_zero j))
    rfl (by decide) (by decide)

/-- C5 as frozen is false: it asserts the invalid-value message for every
submission whose field holds unparseable text, but validation
short-circuits in the fixed field order — with Nitrogen missing and
Phosporus bound to "abc", the handler renders the Nitrogen
missing-value message instead of the claimed Phosporus invalid-value
message. -/
theorem C5_counterexample :
    predict
      ⟨some (fun _ => Except.ok [PredValue.pint 1]),
       some (fun v => Except.ok v), some (fun v => Except.ok v), none⟩
      (fun f => if f = "Phosporus" then some "abc" else none)
      = Response.page "Please provide a value for Nitrogen." ∧
    "Please provide a value for Nitrogen." ≠ "Invalid numeric value for Phosporus: 'abc'" := by
  refine ⟨rfl, by decide⟩

/-- C6: for a valid submission whose raw classifier output no tier can
resolve — no label resolver loaded, output not a string, and its integer
conversion absent from the fallback table — the handler renders
"Sorry, could not determine the best crop. Model output: <raw>". -/
theorem C6_unresolvable_sorry (a : Artifacts) (form : Form)
    (mdl : List ℚ → Except String (List PredValue))
    (scf msf : List ℚ → Except String (List ℚ))
    (vs v1 v2 : List ℚ) (pred : PredValue) (rest : List PredValue) (n : Int)
    (hm : a.model = some mdl) (hsc : a.sc = some scf) (hms : a.ms = some msf)
    (henc : a.label_encoder = none)
    (hv : validateFields form fieldNames = Except.ok vs)
    (h1 : msf vs = Except.ok v1)
    (h2 : scf v1 = Except.ok v2)
    (h3 : mdl v2 = Except.ok (pred :: rest))
    (hstr : PredValue.isStr pred = false)
    (hn : pyIntOfPred pred = some n)
    (hd : crop_dict n = none) :
    predict a form =
      Response.page
        ("Sorry, could not determine the best crop. Model output: " ++ showPred pred) := by
  rw [predict_eq_of_loaded a form mdl scf msf hm hsc hms]
  simp only [hv, h1, h2, h3, henc]
  cases pred with
  | pstr s => simp [PredValue.isStr] at hstr
  | pint k =>
      simp only [pyIntOfPred] at hn
      injection hn with hn
      subst hn
      simp only [resolveCrop, pyIntOfPred, hd, formatResult, sorryMsg]
  | pfloat q =>
      simp only [pyIntOfPred] at hn
      injection hn with hn
      subst hn
      simp only [resolveCrop, pyIntOfPred, hd, formatResult, sorryMsg]

/-- Closed instance of C6: raw output 23 is outside the 22-entry table,
so with no resolver the handler renders the sorry message embedding
23. -/
theorem C6_unresolvable_sorry_witness :
    predict
      ⟨some (fun _ => Except.ok [PredValue.pint 23]),
       some (fun v => Except.ok v), some (fun v => Except.ok v), none⟩
      (fun _ => some "1")
      = Response.page
          ("Sorry, could not determine the best crop. Model output: " ++
            showPred (PredValue.pint 23)) :=
  C6_unresolvable_sorry _ _ _ _ _
    [1, 1, 1, 1, 1, 1, 1] [1, 1, 1, 1, 1, 1, 1] [1, 1, 1, 1, 1, 1, 1]
    (PredValue.pint 23) [] 23
    rfl rfl rfl rfl rfl rfl rfl rfl rfl rfl rfl

/-- C9: the success message requires a truthy crop name — whenever
resolution nominally succeeds with the empty string as the crop name
(e.g. the raw prediction is the empty string, accepted by the textual
tier), the handler still renders the sorry message embedding the raw
prediction. -/
theorem C9_empty_name_sorry (a : Artifacts) (form : Form)
    (mdl : List ℚ → Except String (List PredValue))
    (scf msf : List ℚ → Except String (List ℚ))
    (vs v1 v2 : List ℚ) (pred : PredValue) (rest : List PredValue)
    (hm : a.model = some mdl) (hsc : a.sc = some scf) (hms : a.ms = some msf)
    (hv : validateFields form fieldNames = Except.ok vs)
    (h1 : msf vs = Except.ok v1)
    (h2 : scf v1 = Except.ok v2)
    (h3 : mdl v2 = Except.ok (pred :: rest))
    (hres : resolveCrop a.label_encoder pred = some "") :
    predict a form = Response.page (sorryMsg pred) := by
  rw [predict_eq_of_loaded a form mdl scf msf hm hsc hms]
  simp only [hv, h1, h2, h3, hres, formatResult]
  rw [if_pos trivial]

/-- Closed instance of C9: a raw empty-string prediction is accepted by
the textual tier, yet the handler renders the sorry message (whose
embedded raw output is the empty rendering). -/
theorem C9_empty_name_sorry_witness :
    predict
      ⟨some (fun _ => Except.ok [PredValue.pstr ""]),
       some (fun v => Except.ok v), some (fun v => Except.ok v), none⟩
      (fun _ => some "1")
      = Response.page "Sorry, could not determine the best crop. Model output: " :=
  C9_empty_name_sorry _ _ _ _ _
    [1, 1, 1, 1, 1, 1, 1] [1, 1, 1, 1, 1, 1, 1] [1, 1, 1, 1, 1, 1, 1]
    (PredValue.pstr "") []
    rfl rfl rfl rfl rfl rfl rfl rfl

/-- C7 as frozen is false: `pred = prediction[0]` (app.py line 93) sits
outside every `try` block, so a loaded classifier whose predict returns
an empty array makes the handler raise an uncaught IndexError to the
caller instead of rendering a message. -/
theorem C7_counterexample :
    predict
      ⟨some (fun _ => Except.ok []), some (fun v => Except.ok v),
       some (fun v => Except.ok v), none⟩
      (fun _ => some "1") = Response.crash := rfl

/-- C7 (amended): provided the loaded classifier never returns an empty
prediction array on success, the handler is total — every request
terminates in a rendered result message; every other failure
(availability, validation, scaling, classification, label resolution) is
caught and converted to a result string. -/
theorem C7_total (a : Artifacts) (form : Form)
    (h : ∀ (mdl : List ℚ → Except String (List PredValue)) (v : List ℚ)
           (l : List PredValue),
         a.model = some mdl → mdl v = Except.ok l → l ≠ []) :
    ∃ msg, predict a form = Response.page msg := by
  have hnc : predict a form ≠ Response.crash := by
    intro hc
    obtain ⟨m, s, t, e⟩ := a
    cases m with
    | none => exact Response.noConfusion hc
    | some mdl =>
    cases s with
    | none => exact Response.noConfusion hc
    | some scf =>
    cases t with
    | none => exact Response.noConfusion hc
    | some msf =>
    rw [predict_eq_of_loaded ⟨some mdl, some scf, some msf, e⟩ form mdl scf msf
          rfl rfl rfl] at hc
    split at hc
    next msg heq1 => exact Response.noConfusion hc
    next values heq1 =>
      split at hc
      next er heq2 => exact Response.noConfusion hc
      next scaled heq2 =>
        split at hc
        next er heq3 => exact Response.noConfusion hc
        next final heq3 =>
          split at hc
          next er heq4 => exact Response.noConfusion hc
          next prediction heq4 =>
            split at hc
            · exact absurd rfl (h mdl final [] rfl heq4)
            · exact Response.noConfusion hc
  cases hp : predict a form with
  | page msg => exact ⟨msg, rfl⟩
  | crash => exact absurd hp hnc

/-- Closed instance of the amended C7: a full pipeline on an invalid
submission still renders a page. -/
theorem C7_total_witness :
    ∃ msg,
      predict
        ⟨some (fun _ => Except.ok [PredValue.pint 1]), some (fun v => Except.ok v),
         some (fun v => Except.ok v), none⟩
        (fun _ => some "abc") = Response.page msg :=
  C7_total _ _ (fun mdl v l hm hl => by
    cases Option.some.inj hm
    cases Except.ok.inj hl
    exact List.cons_ne_nil _ _)

/-- C8: with a fixed set of loaded artifacts, the handler is a
deterministic function of the submitted field values — two forms that
agree on the 7 field names render identical results. -/
theorem C8_deterministic (a : Artifacts) (f1 f2 : Form)
    (h : ∀ fld ∈ fieldNames, f1 fld = f2 fld) :
    predict a f1 = predict a f2 := by
  obtain ⟨m, s, t, e⟩ := a
  cases m with
  | none => rfl
  | some mdl =>
  cases s with
  | none => rfl
  | some scf =>
  cases t with
  | none => rfl
  | some msf =>
  rw [predict_eq_of_loaded ⟨some mdl, some scf, some msf, e⟩ f1 mdl scf msf rfl rfl rfl,
      predict_eq_of_loaded ⟨some mdl, some scf, some msf, e⟩ f2 mdl scf msf rfl rfl rfl,
      validateFields_congr f1 f2 fieldNames h]

/-- Closed instance of C8: a form answering "2" everywhere and a form
answering "2" exactly on the 7 field names render the same result. -/
theorem C8_deterministic_witness :
    predict
      ⟨some (fun _ => Except.ok [PredValue.pint 2]), some (fun v => Except.ok v),
       some (fun v => Except.ok v), none⟩
      (fun _ => some "2")
      = predict
          ⟨some (fun _ => Except.ok [PredValue.pint 2]), some (fun v => Except.ok v),
           some (fun v => Except.ok v), none⟩
          (fun f => if f ∈ fieldNames then some "2" else none) :=
  C8_deterministic _ _ _ (fun fld hf => by
    fin_cases hf <;> rfl)
